import Mathlib

/-!
Shallow embedding of the zebra-proxy printer backends and of the HTTP
label-artifact handlers.

Embedded source parts:
  PrinterFactory.createPrinter        (printers/PrinterFactory.js)
  TCPPrinter.print, both variants     (printers/TCPPrinter.js)
  USBPrinter.findPrinter and print    (printers/USBPrinter.js)
  VirtualPrinter response handling,
  generateFilename, deleteSavedLabel  (printers/VirtualPrinter.js)
  GET and DELETE handlers for
  /labels/:filename                   (index.js)

Modelling conventions: JavaScript strings become Lean String, Node
buffers become List Nat (one entry per byte), promises become explicit
result values, and socket activity becomes an explicit list of events
processed in order. Host-language builtins used by the source
(String.prototype.startsWith, parseInt, toLowerCase, path.join,
path.resolve, path.extname, Buffer decoding) are given executable
models written against their documented behaviour, restricted to the
character repertoire the repository actually passes to them.
-/

/- ## String and byte helpers -/

/-- JavaScript String.prototype.startsWith, modelled as a character prefix test. -/
def jsStartsWith (s pat : String) : Bool := pat.data.isPrefixOf s.data

/-- Node Buffer.toString with the ascii encoding: every byte is masked to 7 bits. -/
def asciiDecode (bs : List Nat) : String :=
  String.mk (bs.map (fun b => Char.ofNat (b % 128)))

/-- Unicode replacement character emitted for invalid UTF-8 input. -/
def replacementChar : Char := Char.ofNat 0xFFFD

/-- Fuel-indexed UTF-8 decoder; the fuel is the byte count, each step consumes a byte. -/
def utf8DecodeAux : Nat → List Nat → List Char
  | 0, _ => []
  | _ + 1, [] => []
  | fuel + 1, b :: rest =>
      if b < 128 then Char.ofNat b :: utf8DecodeAux fuel rest
      else if 194 ≤ b ∧ b ≤ 223 then
        match rest with
        | b1 :: rest1 =>
            if 128 ≤ b1 ∧ b1 ≤ 191 then
              Char.ofNat ((b - 192) * 64 + (b1 - 128)) :: utf8DecodeAux fuel rest1
            else replacementChar :: utf8DecodeAux fuel rest
        | [] => [replacementChar]
      else if 224 ≤ b ∧ b ≤ 239 then
        match rest with
        | b1 :: b2 :: rest2 =>
            if (128 ≤ b1 ∧ b1 ≤ 191) ∧ (128 ≤ b2 ∧ b2 ≤ 191) then
              Char.ofNat ((b - 224) * 4096 + (b1 - 128) * 64 + (b2 - 128)) :: utf8DecodeAux fuel rest2
            else replacementChar :: utf8DecodeAux fuel rest
        | _ => [replacementChar]
      else if 240 ≤ b ∧ b ≤ 244 then
        match rest with
        | b1 :: b2 :: b3 :: rest3 =>
            if (128 ≤ b1 ∧ b1 ≤ 191) ∧ (128 ≤ b2 ∧ b2 ≤ 191) ∧ (128 ≤ b3 ∧ b3 ≤ 191) then
              Char.ofNat ((b - 240) * 262144 + (b1 - 128) * 4096 + (b2 - 128) * 64 + (b3 - 128))
                :: utf8DecodeAux fuel rest3
            else replacementChar :: utf8DecodeAux fuel rest
        | _ => [replacementChar]
      else replacementChar :: utf8DecodeAux fuel rest

/-- Node Buffer.toString with the default utf8 encoding. -/
def utf8Decode (bs : List Nat) : String := String.mk (utf8DecodeAux bs.length bs)

/-- JavaScript String.prototype.toLowerCase restricted to ASCII letters. -/
def toLowerAscii (s : String) : String := String.mk (s.data.map Char.toLower)

/- ## TCP backend (printers/TCPPrinter.js, both variants)

The print method registers callbacks on a fresh socket and settles a
promise exactly once. We model an execution as the ordered list of
socket events delivered to those callbacks. A data event destroys the
socket and resolves; a close event means the socket has fully closed
(Node marks it destroyed) and resolves a generic success; an error
event rejects (Node destroys an errored socket); the timer callback
destroys the socket and resolves a timeout success only if the socket
is not yet destroyed. The promise keeps its first settlement. -/

/-- One socket event as seen by the callbacks registered in TCPPrinter.print. -/
inductive TCPEvent where
  | dataEv (response : List Nat)
  | closeEv
  | errorEv (message : String)
  | timeoutEv
deriving DecidableEq

/-- How the promise returned by TCPPrinter.print settles. -/
inductive TCPSettle where
  | resolvedBytes (response : List Nat)
  | resolvedStr (message : String)
  | rejected (message : String)
deriving DecidableEq

/-- Promise state plus the socket destroyed flag checked by the timer callback. -/
structure TCPState where
  settled : Option TCPSettle
  destroyed : Bool
deriving DecidableEq

/-- A promise settles only once: a later settlement attempt is ignored. -/
def settleOnce (s : Option TCPSettle) (v : TCPSettle) : Option TCPSettle :=
  match s with
  | some x => some x
  | none => some v

/-- Event step of the first TCPPrinter variant: a data event resolves with the raw response buffer. -/
def tcpStep1 (s : TCPState) (e : TCPEvent) : TCPState :=
  match e with
  | TCPEvent.dataEv r => ⟨settleOnce s.settled (TCPSettle.resolvedBytes r), true⟩
  | TCPEvent.closeEv => ⟨settleOnce s.settled (TCPSettle.resolvedStr "Print job sent successfully"), true⟩
  | TCPEvent.errorEv m => ⟨settleOnce s.settled (TCPSettle.rejected m), true⟩
  | TCPEvent.timeoutEv =>
      if s.destroyed then s
      else ⟨settleOnce s.settled (TCPSettle.resolvedStr "Print job sent (timeout)"), true⟩

/-- Event step of the second TCPPrinter variant: a data event resolves with the
response decoded through the ascii encoding. All other branches are identical. -/
def tcpStep2 (s : TCPState) (e : TCPEvent) : TCPState :=
  match e with
  | TCPEvent.dataEv r => ⟨settleOnce s.settled (TCPSettle.resolvedStr (asciiDecode r)), true⟩
  | TCPEvent.closeEv => ⟨settleOnce s.settled (TCPSettle.resolvedStr "Print job sent successfully"), true⟩
  | TCPEvent.errorEv m => ⟨settleOnce s.settled (TCPSettle.rejected m), true⟩
  | TCPEvent.timeoutEv =>
      if s.destroyed then s
      else ⟨settleOnce s.settled (TCPSettle.resolvedStr "Print job sent (timeout)"), true⟩

/-- State of the first variant after a full event sequence. -/
def tcpRun1 (evs : List TCPEvent) : TCPState := evs.foldl tcpStep1 ⟨none, false⟩

/-- State of the second variant after a full event sequence. -/
def tcpRun2 (evs : List TCPEvent) : TCPState := evs.foldl tcpStep2 ⟨none, false⟩

/-- Timeout literal of the first TCPPrinter variant. -/
def tcpTimeoutMs1 : Nat := 5000

/-- Timeout literal of the second TCPPrinter variant. -/
def tcpTimeoutMs2 : Nat := 100

theorem tcpStep1_settled_of_settled (s : TCPState) (e : TCPEvent) (x : TCPSettle)
    (h : s.settled = some x) : (tcpStep1 s e).settled = some x := by
  cases e <;> simp [tcpStep1, settleOnce, h]
  split <;> simp [h]

theorem tcpFoldl1_settled_of_settled (evs : List TCPEvent) (s : TCPState) (x : TCPSettle)
    (h : s.settled = some x) : (evs.foldl tcpStep1 s).settled = some x := by
  induction evs generalizing s with
  | nil => simpa using h
  | cons e rest ih => exact ih _ (tcpStep1_settled_of_settled s e x h)

theorem tcpStep1_destroyed (s : TCPState) (e : TCPEvent) : (tcpStep1 s e).destroyed = true := by
  cases e <;> simp [tcpStep1]
  split <;> simp_all

theorem tcpStep2_destroyed (s : TCPState) (e : TCPEvent) : (tcpStep2 s e).destroyed = true := by
  cases e <;> simp [tcpStep2]
  split <;> simp_all

/-- Claim C3: in the TCP backend the first settling event decides the outcome:
response data first resolves with the response bytes; a close first resolves
the generic success message; the timer firing first resolves the success
message annotated timeout; a connection error first rejects with that error. -/
theorem claim_C3_tcp_outcomes :
    (∀ (r : List Nat) (rest : List TCPEvent),
        (tcpRun1 (TCPEvent.dataEv r :: rest)).settled = some (TCPSettle.resolvedBytes r)) ∧
    (∀ rest : List TCPEvent,
        (tcpRun1 (TCPEvent.closeEv :: rest)).settled
          = some (TCPSettle.resolvedStr "Print job sent successfully")) ∧
    (∀ rest : List TCPEvent,
        (tcpRun1 (TCPEvent.timeoutEv :: rest)).settled
          = some (TCPSettle.resolvedStr "Print job sent (timeout)")) ∧
    (∀ (m : String) (rest : List TCPEvent),
        (tcpRun1 (TCPEvent.errorEv m :: rest)).settled = some (TCPSettle.rejected m)) := by
  refine ⟨fun r rest => ?_, fun rest => ?_, fun rest => ?_, fun m rest => ?_⟩ <;>
    exact tcpFoldl1_settled_of_settled rest _ _ rfl

/-- Claim C8: after any nonempty event sequence, hence on every exit path
(data, close, error, or timer), the socket ends up destroyed, in both
TCPPrinter variants. -/
theorem claim_C8_socket_closed :
    ∀ (evs : List TCPEvent) (e : TCPEvent),
      (tcpRun1 (evs ++ [e])).destroyed = true ∧ (tcpRun2 (evs ++ [e])).destroyed = true := by
  intro evs e
  constructor
  · simpa [tcpRun1, List.foldl_append] using tcpStep1_destroyed (evs.foldl tcpStep1 ⟨none, false⟩) e
  · simpa [tcpRun2, List.foldl_append] using tcpStep2_destroyed (evs.foldl tcpStep2 ⟨none, false⟩) e

/-- Abstraction from the first variant settlement to the second: the raw
response buffer corresponds to its ascii-decoded text; everything else agrees. -/
def settleAbs : TCPSettle → TCPSettle
  | TCPSettle.resolvedBytes r => TCPSettle.resolvedStr (asciiDecode r)
  | x => x

theorem tcpStep_rel (s1 s2 : TCPState) (e : TCPEvent)
    (hs : s2.settled = s1.settled.map settleAbs) (hd : s2.destroyed = s1.destroyed) :
    (tcpStep2 s2 e).settled = ((tcpStep1 s1 e).settled).map settleAbs ∧
      (tcpStep2 s2 e).destroyed = (tcpStep1 s1 e).destroyed := by
  cases e <;> cases hx : s1.settled <;> cases hD : s1.destroyed <;>
    simp_all [tcpStep1, tcpStep2, settleOnce, settleAbs]

theorem tcpFoldl_rel (evs : List TCPEvent) (s1 s2 : TCPState)
    (hs : s2.settled = s1.settled.map settleAbs) (hd : s2.destroyed = s1.destroyed) :
    (evs.foldl tcpStep2 s2).settled = ((evs.foldl tcpStep1 s1).settled).map settleAbs ∧
      (evs.foldl tcpStep2 s2).destroyed = (evs.foldl tcpStep1 s1).destroyed := by
  induction evs generalizing s1 s2 with
  | nil => exact ⟨hs, hd⟩
  | cons e rest ih =>
      have h := tcpStep_rel s1 s2 e hs hd
      exact ih _ _ h.1 h.2

/-- Claim C9 counterexample: on the very same event sequence (one data event
delivering byte 72) the first variant resolves with the raw byte buffer while
the second resolves with the decoded text, so the two outcomes differ. -/
theorem claim_C9_counterexample :
    (tcpRun1 [TCPEvent.dataEv [72]]).settled ≠ (tcpRun2 [TCPEvent.dataEv [72]]).settled := by
  decide

/-- Claim C9 amended: the two TCPPrinter variants differ in their timeout
literals (5000 versus 100 milliseconds) and in the representation of the
data-arrival outcome (raw response buffer versus ascii-decoded string); on
every identical event sequence they settle identically up to that decoding,
and agree on the socket destroyed flag. -/
theorem claim_C9_amended :
    tcpTimeoutMs1 = 5000 ∧ tcpTimeoutMs2 = 100 ∧
    ∀ evs : List TCPEvent,
      (tcpRun2 evs).settled = ((tcpRun1 evs).settled).map settleAbs ∧
      (tcpRun2 evs).destroyed = (tcpRun1 evs).destroyed := by
  exact ⟨rfl, rfl, fun evs => tcpFoldl_rel evs ⟨none, false⟩ ⟨none, false⟩ rfl rfl⟩

/- ## USB backend (printers/USBPrinter.js)

The device list, the transfer callback result, and the claimed or
released resources are modelled explicitly. The print promise settles
from the callbacks exactly as written in the source. The constructor
defaults are vendorId 0x0a5f and productId null; findPrinter treats a
configured productId through JavaScript truthiness, so productId 0 is
ignored. When the product lookup finds nothing the source falls
through to the first-vendor-match loop. -/

/-- The idVendor and idProduct fields of a device descriptor. -/
structure USBDeviceDescriptor where
  idVendor : Nat
  idProduct : Nat
deriving DecidableEq

/-- An attached USB device as the backend observes it. -/
structure USBDevice where
  descriptor : USBDeviceDescriptor
  kernelDriverActive : Bool
  hasOutEndpoint : Bool
deriving DecidableEq

/-- Constructor state of USBPrinter. -/
structure USBPrinterCfg where
  vendorId : Nat
  productId : Option Nat
deriving DecidableEq

/-- USBPrinter constructor with its JavaScript parameter defaults. -/
def mkUSBPrinter (vendorId productId : Option Nat) : USBPrinterCfg :=
  ⟨vendorId.getD 0x0a5f, productId⟩

/-- usb.findByIds: first device matching both identifiers. -/
def usbFindByIds (devices : List USBDevice) (v p : Nat) : Option USBDevice :=
  devices.find? (fun d => d.descriptor.idVendor == v && d.descriptor.idProduct == p)

/-- The fallback loop in findPrinter: first device matching the vendor identifier. -/
def usbFindFirstVendor (devices : List USBDevice) (v : Nat) : Option USBDevice :=
  devices.find? (fun d => d.descriptor.idVendor == v)

/-- USBPrinter.findPrinter: with a truthy productId try the exact lookup first,
then fall through to the first vendor match; otherwise only the vendor match. -/
def USBPrinter.findPrinter (cfg : USBPrinterCfg) (devices : List USBDevice) : Option USBDevice :=
  match cfg.productId with
  | some pid =>
      if pid ≠ 0 then
        match usbFindByIds devices cfg.vendorId pid with
        | some d => some d
        | none => usbFindFirstVendor devices cfg.vendorId
      else usbFindFirstVendor devices cfg.vendorId
  | none => usbFindFirstVendor devices cfg.vendorId

/-- Device operations performed by USBPrinter.print, in order. -/
inductive USBAction where
  | openDevice
  | detachKernelDriver
  | claimInterface
  | bulkTransfer
  | closeDevice
deriving DecidableEq

/-- How the promise returned by USBPrinter.print settles. -/
inductive USBSettle where
  | resolvedMsg (message : String)
  | rejected (message : String)
deriving DecidableEq

/-- The environment of a print call: attached devices and the error, if any,
that the bulk transfer callback will report. -/
structure USBWorld where
  devices : List USBDevice
  transferError : Option String
deriving DecidableEq

/-- USBPrinter.initializeDevice on the found device: open, take interface 0,
detach an active kernel driver, claim, then locate the first OUT endpoint.
Returns the error thrown when no OUT endpoint exists, with the actions done. -/
def USBPrinter.initializeDevice (d : USBDevice) : Except String Unit × List USBAction :=
  let acts := [USBAction.openDevice]
    ++ (if d.kernelDriverActive then [USBAction.detachKernelDriver] else [])
    ++ [USBAction.claimInterface]
  (if d.hasOutEndpoint then Except.ok () else Except.error "No OUT endpoint found on USB device",
   acts)

/-- USBPrinter.print: reject without touching the device when findPrinter
fails; otherwise initialize, run the bulk transfer, settle from the transfer
callback, and close the device inside that same callback on both branches.
In the source initializeDevice is async and invoked without await, so a
thrown initialization error surfaces as a rejection with no transfer and no
close; the model returns that rejection directly. -/
def USBPrinter.print (cfg : USBPrinterCfg) (payload : List Nat) (w : USBWorld) :
    USBSettle × List USBAction :=
  match USBPrinter.findPrinter cfg w.devices with
  | none => (USBSettle.rejected "Zebra printer not found via USB", [])
  | some d =>
      match USBPrinter.initializeDevice d with
      | (Except.error e, acts) => (USBSettle.rejected e, acts)
      | (Except.ok _, acts) =>
          match w.transferError with
          | some e => (USBSettle.rejected e, acts ++ [USBAction.bulkTransfer, USBAction.closeDevice])
          | none => (USBSettle.resolvedMsg "Print job sent successfully via USB",
                     acts ++ [USBAction.bulkTransfer, USBAction.closeDevice])

/-- Claim C1 counterexample: with productId 0x1234 configured and only a
vendor-matching device of a different product enumerated, print does not fail
with the not-found rejection: it opens the fallback device and proceeds, so an
exact vendor and product match is not required. -/
theorem claim_C1_counterexample :
    let cfg : USBPrinterCfg := ⟨0x0a5f, some 0x1234⟩
    let w : USBWorld := ⟨[⟨⟨0x0a5f, 0x9999⟩, false, true⟩], none⟩
    usbFindByIds w.devices cfg.vendorId 0x1234 = none ∧
    (USBPrinter.print cfg [] w).1 ≠ USBSettle.rejected "Zebra printer not found via USB" ∧
    USBAction.openDevice ∈ (USBPrinter.print cfg [] w).2 := by
  decide

/-- Claim C1 amended: with a truthy product identifier configured an exact
vendor and product match is preferred but not required: when the exact lookup
finds a device that device is used, when it finds nothing the first device
matching the configured vendor identifier is accepted instead, and only when
no device matches the vendor identifier does print reject with the not-found
error, in which case no device action is performed, so the device is never
opened. -/
theorem claim_C1_amended :
    (∀ (cfg : USBPrinterCfg) (devices : List USBDevice) (pid : Nat) (d : USBDevice),
        cfg.productId = some pid → pid ≠ 0 →
        usbFindByIds devices cfg.vendorId pid = some d →
        USBPrinter.findPrinter cfg devices = some d) ∧
    (∀ (cfg : USBPrinterCfg) (devices : List USBDevice) (pid : Nat) (d : USBDevice),
        cfg.productId = some pid → pid ≠ 0 →
        usbFindByIds devices cfg.vendorId pid = none →
        usbFindFirstVendor devices cfg.vendorId = some d →
        USBPrinter.findPrinter cfg devices = some d) ∧
    (∀ (cfg : USBPrinterCfg) (payload : List Nat) (w : USBWorld),
        (∀ d ∈ w.devices, d.descriptor.idVendor ≠ cfg.vendorId) →
        USBPrinter.print cfg payload w
          = (USBSettle.rejected "Zebra printer not found via USB", [])) := by
  refine ⟨?_, ?_, ?_⟩
  · intro cfg devices pid d hpid hne hfind
    simp [USBPrinter.findPrinter, hpid, hne, hfind]
  · intro cfg devices pid d hpid hne hfind hvend
    simp [USBPrinter.findPrinter, hpid, hne, hfind, hvend]
  · intro cfg payload w hnone
    have hv : usbFindFirstVendor w.devices cfg.vendorId = none := by
      simp only [usbFindFirstVendor, List.find?_eq_none]
      intro d hd
      simpa using hnone d hd
    have hb : ∀ pid, usbFindByIds w.devices cfg.vendorId pid = none := by
      intro pid
      simp only [usbFindByIds, List.find?_eq_none]
      intro d hd
      simp [hnone d hd]
    have hfp : USBPrinter.findPrinter cfg w.devices = none := by
      unfold USBPrinter.findPrinter
      cases hp : cfg.productId with
      | none => exact hv
      | some pid =>
          by_cases hz : pid ≠ 0
          · simp [hz, hb pid, hv]
          · simp [hz, hv]
    simp [USBPrinter.print, hfp]

/-- Claim C1 amended witness at concrete inputs: exact match used, fallback
vendor match used, and a not-found rejection with an empty action list. -/
theorem claim_C1_amended_witness :
    USBPrinter.findPrinter ⟨0x0a5f, some 3⟩ [⟨⟨0x0a5f, 3⟩, false, true⟩]
        = some ⟨⟨0x0a5f, 3⟩, false, true⟩ ∧
    USBPrinter.findPrinter ⟨0x0a5f, some 3⟩ [⟨⟨0x0a5f, 4⟩, false, true⟩]
        = some ⟨⟨0x0a5f, 4⟩, false, true⟩ ∧
    USBPrinter.print ⟨0x0a5f, some 3⟩ [] ⟨[], none⟩
        = (USBSettle.rejected "Zebra printer not found via USB", []) :=
  ⟨claim_C1_amended.1 ⟨0x0a5f, some 3⟩ _ 3 _ rfl (by decide) (by decide),
   claim_C1_amended.2.1 ⟨0x0a5f, some 3⟩ _ 3 _ rfl (by decide) (by decide) (by decide),
   claim_C1_amended.2.2 ⟨0x0a5f, some 3⟩ [] ⟨[], none⟩ (by simp)⟩

/-- Claim C7: once a device is found and initialized, the transfer callback
settles the promise and then closes the device on both branches: an error
reported by the callback rejects with that error and the close operation is
still performed, and a successful transfer resolves with the success message
and likewise closes the device. -/
theorem claim_C7_close_on_transfer :
    ∀ (cfg : USBPrinterCfg) (w : USBWorld) (d : USBDevice) (payload : List Nat),
      USBPrinter.findPrinter cfg w.devices = some d →
      d.hasOutEndpoint = true →
      (∀ e, w.transferError = some e →
          (USBPrinter.print cfg payload w).1 = USBSettle.rejected e ∧
          USBAction.closeDevice ∈ (USBPrinter.print cfg payload w).2) ∧
      (w.transferError = none →
          (USBPrinter.print cfg payload w).1
            = USBSettle.resolvedMsg "Print job sent successfully via USB" ∧
          USBAction.closeDevice ∈ (USBPrinter.print cfg payload w).2) := by
  intro cfg w d payload hfind hep
  constructor
  · intro e herr
    simp [USBPrinter.print, USBPrinter.initializeDevice, hfind, hep, herr]
  · intro herr
    simp [USBPrinter.print, USBPrinter.initializeDevice, hfind, hep, herr]

/-- Claim C7 witness: a concrete world whose transfer callback reports an
error still records the close action and rejects with that error, and a
concrete world with a successful transfer also closes. -/
theorem claim_C7_witness :
    ((USBPrinter.print ⟨0x0a5f, none⟩ [] ⟨[⟨⟨0x0a5f, 1⟩, true, true⟩], some "LIBUSB_ERROR_PIPE"⟩).1
        = USBSettle.rejected "LIBUSB_ERROR_PIPE" ∧
      USBAction.closeDevice
        ∈ (USBPrinter.print ⟨0x0a5f, none⟩ [] ⟨[⟨⟨0x0a5f, 1⟩, true, true⟩], some "LIBUSB_ERROR_PIPE"⟩).2) ∧
    ((USBPrinter.print ⟨0x0a5f, none⟩ [] ⟨[⟨⟨0x0a5f, 1⟩, true, true⟩], none⟩).1
        = USBSettle.resolvedMsg "Print job sent successfully via USB" ∧
      USBAction.closeDevice
        ∈ (USBPrinter.print ⟨0x0a5f, none⟩ [] ⟨[⟨⟨0x0a5f, 1⟩, true, true⟩], none⟩).2) :=
  ⟨(claim_C7_close_on_transfer ⟨0x0a5f, none⟩ _ ⟨⟨0x0a5f, 1⟩, true, true⟩ [] (by decide) rfl).1
      "LIBUSB_ERROR_PIPE" rfl,
   (claim_C7_close_on_transfer ⟨0x0a5f, none⟩ _ ⟨⟨0x0a5f, 1⟩, true, true⟩ [] (by decide) rfl).2 rfl⟩

/- ## Path utilities (Node path.join, path.resolve, path.extname)

Paths are split on the slash character; empty and single-dot segments
are dropped; path.resolve is applied with an explicit absolute working
directory given as its list of segments. Absolute normalization clamps
a leading parent segment at the root exactly as Node does; relative
normalization keeps leading parent segments. -/

/-- Split a character list on slashes into raw segments. -/
def splitRaw : List Char → List Char → List String
  | [], acc => [String.mk acc.reverse]
  | c :: rest, acc =>
      if c = '/' then String.mk acc.reverse :: splitRaw rest []
      else splitRaw rest (c :: acc)

/-- Segments of a path with empty and single-dot segments dropped. -/
def splitSegs (s : String) : List String :=
  (splitRaw s.data []).filter (fun t => t != "" && t != ".")

/-- Normalization of an absolute segment list: a parent segment pops the last
segment and is clamped at the root. -/
def normAbsSegs (segs : List String) : List String :=
  segs.foldl (fun acc seg => if seg = ".." then acc.dropLast else acc ++ [seg]) []

/-- Normalization of a relative segment list: leading parent segments are kept. -/
def normRelSegs (segs : List String) : List String :=
  segs.foldl (fun acc seg =>
    if seg = ".." then
      if acc.isEmpty || acc.getLast? == some ".." then acc ++ [".."] else acc.dropLast
    else acc ++ [seg]) []

/-- Render a nonempty relative segment list with slash separators. -/
def joinRel : List String → String
  | [] => ""
  | [x] => x
  | x :: xs => x ++ "/" ++ joinRel xs

/-- Render absolute segments, each preceded by a slash. -/
def renderSegs : List String → String
  | [] => ""
  | x :: xs => "/" ++ x ++ renderSegs xs

/-- Render a normalized absolute segment list as a path string. -/
def renderAbs (segs : List String) : String :=
  if segs.isEmpty then "/" else renderSegs segs

/-- Node path.join of two paths: concatenate the segments and normalize,
keeping the absolute prefix of the first part if present. -/
def pathJoin (a b : String) : String :=
  if jsStartsWith a "/" then renderAbs (normAbsSegs (splitSegs a ++ splitSegs b))
  else
    let segs := normRelSegs (splitSegs a ++ splitSegs b)
    if segs.isEmpty then "." else joinRel segs

/-- Node path.resolve against the working directory, as normalized segments. -/
def pathResolveSegs (cwd : List String) (p : String) : List String :=
  if jsStartsWith p "/" then normAbsSegs (splitSegs p)
  else normAbsSegs (cwd ++ splitSegs p)

/-- Node path.resolve against the working directory, as a path string. -/
def pathResolve (cwd : List String) (p : String) : String :=
  renderAbs (pathResolveSegs cwd p)

/-- Node path.extname: the suffix of the basename from its last dot, empty
when there is no dot or the only dot starts the basename. -/
def extname (p : String) : String :=
  let base := ((splitRaw p.data []).getLast?).getD ""
  let r := base.data.reverse
  let preChars := r.takeWhile (fun c => c != '.')
  match r.drop preChars.length with
  | [] => ""
  | [_] => ""
  | _ => String.mk ('.' :: preChars.reverse)

/- ## Backend selector (printers/PrinterFactory.js) -/

/-- JavaScript truthiness of an optional string field. -/
def jsTruthyStr (o : Option String) : Bool :=
  match o with
  | some s => s != ""
  | none => false

/-- JavaScript truthiness of an optional numeric field. -/
def jsTruthyNat (o : Option Nat) : Bool :=
  match o with
  | some n => n != 0
  | none => false

/-- Options object passed to the VirtualPrinter constructor. -/
structure VirtualOptions where
  baseUrl : Option String := none
  dpmm : Option String := none
  labelWidth : Option String := none
  labelHeight : Option String := none
  labelIndex : Option String := none
  outputFormat : Option String := none
  saveDirectory : Option String := none
deriving DecidableEq

/-- Constructor state of VirtualPrinter after defaulting. -/
structure VirtualConfig where
  baseUrl : String
  dpmm : String
  labelWidth : String
  labelHeight : String
  labelIndex : String
  outputFormat : String
  saveDirectory : String
deriving DecidableEq

/-- The JavaScript or-else defaulting used by the VirtualPrinter constructor. -/
def jsOrDefault (o : Option String) (d : String) : String :=
  match o with
  | some s => if s = "" then d else s
  | none => d

/-- VirtualPrinter constructor with its source defaults. -/
def mkVirtualPrinter (o : VirtualOptions) : VirtualConfig :=
  ⟨jsOrDefault o.baseUrl "http://api.labelary.com/v1/printers",
   jsOrDefault o.dpmm "8dpmm",
   jsOrDefault o.labelWidth "100",
   jsOrDefault o.labelHeight "150",
   jsOrDefault o.labelIndex "0",
   jsOrDefault o.outputFormat "png",
   jsOrDefault o.saveDirectory "./generated_labels"⟩

/-- The configuration record handed to PrinterFactory.createPrinter. -/
structure PrinterConfig where
  type : String
  host : Option String
  port : Option Nat
  vendorId : Option Nat
  productId : Option Nat
  virtual : VirtualOptions
deriving DecidableEq

/-- A constructed backend instance. -/
inductive Printer where
  | tcp (host : String) (port : Nat)
  | usb (cfg : USBPrinterCfg)
  | virtualPrinter (cfg : VirtualConfig)
deriving DecidableEq

/-- The backend kind of a constructed instance. -/
def Printer.kindOf : Printer → String
  | Printer.tcp _ _ => "tcp"
  | Printer.usb _ => "usb"
  | Printer.virtualPrinter _ => "virtual"

/-- PrinterFactory.createPrinter: switch on the lowercased type, require
truthy host and port for tcp, and throw on an unknown type, naming it. -/
def PrinterFactory.createPrinter (c : PrinterConfig) : Except String Printer :=
  let t := toLowerAscii c.type
  if t = "tcp" then
    if jsTruthyStr c.host && jsTruthyNat c.port then
      Except.ok (Printer.tcp (c.host.getD "") (c.port.getD 0))
    else Except.error "TCP printer requires host and port configuration"
  else if t = "usb" then Except.ok (Printer.usb (mkUSBPrinter c.vendorId c.productId))
  else if t = "virtual" then Except.ok (Printer.virtualPrinter (mkVirtualPrinter c.virtual))
  else Except.error ("Unsupported printer type: " ++ c.type ++ ". Supported types: tcp, usb, virtual")

/-- Claim C6: each of the three known kinds with valid kind-required fields
yields a backend instance of that kind; a tcp configuration whose host or
port is missing fails with the missing-field configuration error; an unknown
kind fails with the configuration error naming the unsupported type. -/
theorem claim_C6_factory :
    (∀ c : PrinterConfig, toLowerAscii c.type = "tcp" →
        jsTruthyStr c.host = true → jsTruthyNat c.port = true →
        ∃ p, PrinterFactory.createPrinter c = Except.ok p ∧ Printer.kindOf p = "tcp") ∧
    (∀ c : PrinterConfig, toLowerAscii c.type = "usb" →
        ∃ p, PrinterFactory.createPrinter c = Except.ok p ∧ Printer.kindOf p = "usb") ∧
    (∀ c : PrinterConfig, toLowerAscii c.type = "virtual" →
        ∃ p, PrinterFactory.createPrinter c = Except.ok p ∧ Printer.kindOf p = "virtual") ∧
    (∀ c : PrinterConfig, toLowerAscii c.type = "tcp" →
        (jsTruthyStr c.host = false ∨ jsTruthyNat c.port = false) →
        PrinterFactory.createPrinter c
          = Except.error "TCP printer requires host and port configuration") ∧
    (∀ c : PrinterConfig, toLowerAscii c.type ≠ "tcp" → toLowerAscii c.type ≠ "usb" →
        toLowerAscii c.type ≠ "virtual" →
        PrinterFactory.createPrinter c
          = Except.error ("Unsupported printer type: " ++ c.type
              ++ ". Supported types: tcp, usb, virtual")) := by
  refine ⟨?_, ?_, ?_, ?_, ?_⟩
  · intro c ht hh hp
    exact ⟨Printer.tcp (c.host.getD "") (c.port.getD 0),
      by simp [PrinterFactory.createPrinter, ht, hh, hp], rfl⟩
  · intro c ht
    refine ⟨Printer.usb (mkUSBPrinter c.vendorId c.productId), ?_, rfl⟩
    simp [PrinterFactory.createPrinter, ht]
  · intro c ht
    refine ⟨Printer.virtualPrinter (mkVirtualPrinter c.virtual), ?_, rfl⟩
    simp [PrinterFactory.createPrinter, ht]
  · intro c ht hmiss
    rcases hmiss with hh | hp
    · simp [PrinterFactory.createPrinter, ht, hh]
    · simp [PrinterFactory.createPrinter, ht, hp]
  · intro c h1 h2 h3
    simp [PrinterFactory.createPrinter, h1, h2, h3]

/-- Claim C6 witness: concrete selections for all three kinds, a tcp
configuration missing its host, and an unknown kind. -/
theorem claim_C6_witness :
    (∃ p, PrinterFactory.createPrinter ⟨"TCP", some "10.0.0.5", some 9100, none, none, {}⟩
        = Except.ok p ∧ Printer.kindOf p = "tcp") ∧
    (∃ p, PrinterFactory.createPrinter ⟨"usb", none, none, some 0x0a5f, none, {}⟩
        = Except.ok p ∧ Printer.kindOf p = "usb") ∧
    (∃ p, PrinterFactory.createPrinter ⟨"virtual", none, none, none, none, {}⟩
        = Except.ok p ∧ Printer.kindOf p = "virtual") ∧
    PrinterFactory.createPrinter ⟨"tcp", none, some 9100, none, none, {}⟩
        = Except.error "TCP printer requires host and port configuration" ∧
    PrinterFactory.createPrinter ⟨"serial", none, none, none, none, {}⟩
        = Except.error "Unsupported printer type: serial. Supported types: tcp, usb, virtual" :=
  ⟨claim_C6_factory.1 _ (by decide) (by decide) (by decide),
   claim_C6_factory.2.1 _ (by decide),
   claim_C6_factory.2.2.1 _ (by decide),
   claim_C6_factory.2.2.2.1 _ (by decide) (Or.inl (by decide)),
   claim_C6_factory.2.2.2.2 _ (by decide) (by decide) (by decide)⟩

/- ## HTTP-relay backend (printers/VirtualPrinter.js)

The print method issues one HTTP request and handles the buffered
response on the end event. We embed that response handler as a pure
function of the configuration, the current timestamp, the status code,
the optional x-total-count header, the buffered body bytes, and the
current contents of the save directory modelled as an association list
from filename to stored data. -/

/-- Data written into an artifact file: either opaque bytes or decoded text. -/
inductive FileData where
  | bin (bytes : List Nat)
  | txt (text : String)
deriving DecidableEq

/-- Whitespace skipped by JavaScript parseInt. -/
def isJsSpace (c : Char) : Bool := c == ' ' || c == '\t' || c == '\n' || c == '\r'

/-- Value of a list of decimal digit characters. -/
def decDigitsVal (ds : List Char) : Nat :=
  ds.foldl (fun a c => a * 10 + (c.toNat - 48)) 0

/-- Hexadecimal digit test used by parseInt after a 0x prefix. -/
def isHexDigitChar (c : Char) : Bool :=
  c.isDigit || ('a' ≤ c && c ≤ 'f') || ('A' ≤ c && c ≤ 'F')

/-- Value of one hexadecimal digit character. -/
def hexDigitVal (c : Char) : Nat :=
  if c.isDigit then c.toNat - 48
  else if 'a' ≤ c && c ≤ 'f' then c.toNat - 87
  else c.toNat - 55

/-- Value of a list of hexadecimal digit characters. -/
def hexDigitsVal (ds : List Char) : Nat :=
  ds.foldl (fun a c => a * 16 + hexDigitVal c) 0

/-- Digit scan of JavaScript parseInt after sign handling: a 0x prefix selects
hexadecimal, otherwise leading decimal digits; no digits yields NaN (none). -/
def jsParseIntCore (sign : Int) (cs : List Char) : Option Int :=
  match cs with
  | '0' :: c :: rest =>
      if c == 'x' || c == 'X' then
        let hs := rest.takeWhile isHexDigitChar
        if hs.isEmpty then none else some (sign * (hexDigitsVal hs : Int))
      else
        let ds := ('0' :: c :: rest).takeWhile Char.isDigit
        if ds.isEmpty then none else some (sign * (decDigitsVal ds : Int))
  | _ =>
      let ds := cs.takeWhile Char.isDigit
      if ds.isEmpty then none else some (sign * (decDigitsVal ds : Int))

/-- JavaScript parseInt with no radix argument; none models NaN. -/
def jsParseInt (s : String) : Option Int :=
  let cs := s.data.dropWhile isJsSpace
  match cs with
  | '-' :: rest => jsParseIntCore (-1) rest
  | '+' :: rest => jsParseIntCore 1 rest
  | _ => jsParseIntCore 1 cs

/-- Timestamp sanitization in generateFilename: colons and dots become dashes. -/
def sanitizeTimestamp (ts : String) : String :=
  String.mk (ts.data.map (fun c => if c = ':' || c = '.' then '-' else c))

/-- Extension selection in generateFilename: pdf and json map to themselves,
every other configured output format maps to png. -/
def extFor (outputFormat : String) : String :=
  if outputFormat = "pdf" then "pdf" else if outputFormat = "json" then "json" else "png"

/-- VirtualPrinter.generateFilename at a given ISO timestamp string. -/
def VirtualPrinter.generateFilename (cfg : VirtualConfig) (ts : String) : String :=
  "label_" ++ sanitizeTimestamp ts ++ "." ++ extFor cfg.outputFormat

/-- The resolved outcome of a successful VirtualPrinter.print call. -/
structure VPOutcome where
  message : String
  labelCount : Option Int
  outputFormat : String
  dataSize : Nat
  filename : String
  filepath : String
  savedAt : String
deriving DecidableEq

/-- Response handling of VirtualPrinter.print once the body is buffered:
status 200 derives a filename from the timestamp, persists the body into the
save directory (decoded as text for json output, opaque bytes otherwise) and
resolves the outcome record; any other status rejects with the render-service
error carrying the status code and the body text, leaving the store unchanged. -/
def VirtualPrinter.handleResponse (cfg : VirtualConfig) (ts savedAtTs : String)
    (statusCode : Nat) (totalCountHeader : Option String) (data : List Nat)
    (store : List (String × FileData)) :
    Except String VPOutcome × List (String × FileData) :=
  if statusCode = 200 then
    let totalCount := totalCountHeader.getD "1"
    let filename := VirtualPrinter.generateFilename cfg ts
    let filepath := pathJoin cfg.saveDirectory filename
    let content := if cfg.outputFormat = "json" then FileData.txt (utf8Decode data)
      else FileData.bin data
    (Except.ok ⟨"Label processed and saved successfully", jsParseInt totalCount,
        cfg.outputFormat, data.length, filename, filepath, savedAtTs⟩,
     store ++ [(filename, content)])
  else
    (Except.error ("Labelary API error (" ++ toString statusCode ++ "): " ++ utf8Decode data),
     store)

/-- Claim C4: a response whose status is not a success status rejects with the
render-service error carrying the status code and the decoded body text, and
the artifact store is unchanged: no file is written. -/
theorem claim_C4_render_error :
    ∀ (cfg : VirtualConfig) (ts savedAtTs : String) (statusCode : Nat)
      (hdr : Option String) (data : List Nat) (store : List (String × FileData)),
      ¬ (200 ≤ statusCode ∧ statusCode < 300) →
      VirtualPrinter.handleResponse cfg ts savedAtTs statusCode hdr data store
        = (Except.error ("Labelary API error (" ++ toString statusCode ++ "): "
            ++ utf8Decode data), store) := by
  intro cfg ts savedAtTs statusCode hdr data store h
  have hne : statusCode ≠ 200 := by
    intro he
    exact h (by simp [he])
  simp [VirtualPrinter.handleResponse, hne]

/-- Claim C4 witness: a 404 response with body text not found rejects with the
message carrying 404 and that text, and writes nothing. -/
theorem claim_C4_witness :
    VirtualPrinter.handleResponse (mkVirtualPrinter {}) "t" "t" 404 none
        [110, 111, 116, 32, 102, 111, 117, 110, 100] []
      = (Except.error "Labelary API error (404): not found", []) := by
  have h := claim_C4_render_error (mkVirtualPrinter {}) "t" "t" 404 none
    [110, 111, 116, 32, 102, 111, 117, 110, 100] [] (by decide)
  rw [h]
  rfl

/-- Claim C5: a status 200 response appends exactly one entry to the artifact
store, named from the sanitized timestamp and the extension for the configured
output format, holding the body decoded as text for json output and the raw
bytes otherwise; the resolved outcome carries the parsed count header with
default 1, the output format, the byte size, the filename, the joined path and
the save timestamp; the extension is always one of png, pdf, json; and with no
count header the label count is 1. -/
theorem claim_C5_render_success :
    ∀ (cfg : VirtualConfig) (ts savedAtTs : String) (hdr : Option String)
      (data : List Nat) (store : List (String × FileData)),
      VirtualPrinter.handleResponse cfg ts savedAtTs 200 hdr data store
        = (Except.ok ⟨"Label processed and saved successfully",
              jsParseInt (hdr.getD "1"), cfg.outputFormat, data.length,
              "label_" ++ sanitizeTimestamp ts ++ "." ++ extFor cfg.outputFormat,
              pathJoin cfg.saveDirectory
                ("label_" ++ sanitizeTimestamp ts ++ "." ++ extFor cfg.outputFormat),
              savedAtTs⟩,
           store ++ [("label_" ++ sanitizeTimestamp ts ++ "." ++ extFor cfg.outputFormat,
              if cfg.outputFormat = "json" then FileData.txt (utf8Decode data)
              else FileData.bin data)]) ∧
      extFor cfg.outputFormat ∈ ["png", "pdf", "json"] ∧
      (hdr = none → jsParseInt (hdr.getD "1") = some 1) := by
  intro cfg ts savedAtTs hdr data store
  refine ⟨rfl, ?_, ?_⟩
  · by_cases h1 : cfg.outputFormat = "pdf" <;> by_cases h2 : cfg.outputFormat = "json" <;>
      simp [extFor, h1, h2]
  · intro h
    subst h
    decide

/-- Claim C5 witness: the implication conjunct discharged at a concrete
configuration with no count header. -/
theorem claim_C5_witness :
    jsParseInt ((none : Option String).getD "1") = some 1 :=
  (claim_C5_render_success (mkVirtualPrinter {}) "t" "t" none [] []).2.2 rfl

/- ## Artifact serving and deletion (index.js handlers and
VirtualPrinter.deleteSavedLabel)

The filesystem visible to these handlers is modelled as an association
list from resolved absolute path segments to file data. The serve
handler for GET /labels/:filename joins the requested filename onto
the save directory, resolves both paths, and rejects with 403 before
any filesystem access unless the resolved path string starts with the
resolved save directory string. The delete path joins and removes with
no such check. -/

/-- Lookup of a resolved absolute path in the modelled filesystem. -/
def fsLookup (fs : List (List String × FileData)) (p : List String) : Option FileData :=
  (fs.find? (fun e => e.1 == p)).map (fun e => e.2)

/-- Outcome of the GET /labels/:filename handler. -/
inductive ServeResult where
  | accessDenied
  | fileNotFound
  | served (content : FileData) (contentType : String)
deriving DecidableEq

/-- Content type chosen from the lowercased filename extension. -/
def contentTypeFor (filename : String) : String :=
  let ext := toLowerAscii (extname filename)
  if ext = ".png" then "image/png"
  else if ext = ".pdf" then "application/pdf"
  else if ext = ".json" then "application/json"
  else "application/octet-stream"

/-- GET /labels/:filename handler: join, resolve, string-prefix security
check, existence check, then serve with the extension-derived content type. -/
def serveLabel (cwd : List String) (saveDirectory filename : String)
    (fs : List (List String × FileData)) : ServeResult :=
  let filepath := pathJoin saveDirectory filename
  let resolvedPath := pathResolve cwd filepath
  let resolvedSaveDir := pathResolve cwd saveDirectory
  if jsStartsWith resolvedPath resolvedSaveDir then
    match fsLookup fs (pathResolveSegs cwd filepath) with
    | none => ServeResult.fileNotFound
    | some c => ServeResult.served c (contentTypeFor filename)
  else ServeResult.accessDenied

/-- VirtualPrinter.deleteSavedLabel: join the caller-supplied filename onto
the save directory and unlink if the file exists, with no containment check;
a missing file raises the wrapped not-found error. -/
def VirtualPrinter.deleteSavedLabel (cwd : List String) (cfg : VirtualConfig)
    (filename : String) (fs : List (List String × FileData)) :
    Except String (List (List String × FileData)) :=
  let filepath := pathJoin cfg.saveDirectory filename
  let target := pathResolveSegs cwd filepath
  if (fsLookup fs target).isSome then
    Except.ok (fs.filter (fun e => e.1 != target))
  else Except.error "Failed to delete file: File not found"

theorem renderSegs_data_append (s t : List String) :
    (renderSegs (s ++ t)).data = (renderSegs s).data ++ (renderSegs t).data := by
  induction s with
  | nil => simp [renderSegs]
  | cons x xs ih => simp [renderSegs, String.data_append, ih]

theorem jsStartsWith_renderAbs (s t : List String) :
    jsStartsWith (renderAbs (s ++ t)) (renderAbs s) = true := by
  cases s with
  | nil =>
      cases t with
      | nil => decide
      | cons y ys =>
          simp only [List.nil_append, renderAbs, List.isEmpty_cons, if_false, List.isEmpty_nil,
            if_true, jsStartsWith, renderSegs, List.isPrefixOf_iff_prefix]
          simp [String.data_append]
  | cons x xs =>
      simp only [renderAbs, List.isEmpty_cons, List.cons_append, if_false, jsStartsWith,
        List.isPrefixOf_iff_prefix]
      refine ⟨(renderSegs t).data, ?_⟩
      have h := renderSegs_data_append (x :: xs) t
      simp only [List.cons_append] at h
      exact h.symm

/-- Claim C2 counterexample: the filename resolving to a sibling directory
whose name extends the save directory name lies outside the save directory,
yet the handler does not reject it: the string-prefix check passes and the
external file is served. -/
theorem claim_C2_counterexample :
    ¬ (pathResolveSegs ["app"] "./generated_labels"
        <+: pathResolveSegs ["app"] (pathJoin "./generated_labels" "../generated_labelsX/secret")) ∧
    serveLabel ["app"] "./generated_labels" "../generated_labelsX/secret"
        [(["app", "generated_labelsX", "secret"], FileData.bin [1])]
      = ServeResult.served (FileData.bin [1]) "application/octet-stream" := by
  constructor
  · decide
  · rfl

/-- Claim C2 amended: the handler rejects before any filesystem access
exactly those requests whose resolved path string does not start with the
resolved save directory string; in particular the filename
../../etc/passwd is rejected; every request resolving to a path that extends
the save directory segment-wise is not rejected; but a resolved path outside
the save directory whose string extends the save directory string, such as a
sibling directory with an extended name, escapes the check. -/
theorem claim_C2_amended :
    (∀ (cwd : List String) (sd fn : String) (fs : List (List String × FileData)),
        serveLabel cwd sd fn fs = ServeResult.accessDenied ↔
          jsStartsWith (pathResolve cwd (pathJoin sd fn)) (pathResolve cwd sd) = false) ∧
    (∀ fs : List (List String × FileData),
        serveLabel ["app"] "./generated_labels" "../../etc/passwd" fs
          = ServeResult.accessDenied) ∧
    (∀ (cwd : List String) (sd fn : String) (fs : List (List String × FileData)),
        pathResolveSegs cwd sd <+: pathResolveSegs cwd (pathJoin sd fn) →
        serveLabel cwd sd fn fs ≠ ServeResult.accessDenied) := by
  refine ⟨?_, ?_, ?_⟩
  · intro cwd sd fn fs
    cases h : jsStartsWith (pathResolve cwd (pathJoin sd fn)) (pathResolve cwd sd)
    · simp [serveLabel, h]
    · simp only [serveLabel, h, if_true]
      cases fsLookup fs (pathResolveSegs cwd (pathJoin sd fn)) <;> simp
  · intro fs
    rfl
  · intro cwd sd fn fs h
    obtain ⟨u, hu⟩ := h
    have hsw : jsStartsWith (pathResolve cwd (pathJoin sd fn)) (pathResolve cwd sd) = true := by
      rw [pathResolve, pathResolve, ← hu]
      exact jsStartsWith_renderAbs _ _
    simp only [serveLabel, hsw, if_true]
    cases fsLookup fs (pathResolveSegs cwd (pathJoin sd fn)) <;> simp

/-- Claim C2 amended witness: a plain label filename resolves inside the save
directory and is not rejected. -/
theorem claim_C2_amended_witness :
    serveLabel ["app"] "./generated_labels" "label_x.png" [] ≠ ServeResult.accessDenied :=
  claim_C2_amended.2.2 ["app"] "./generated_labels" "label_x.png" [] (by decide)

/-- Claim C10: deleteSavedLabel applies no containment check: the filename
../../etc/target built from parent segments resolves outside the save
directory, its deletion succeeds and removes that external file from the
filesystem, while the serving handler rejects the very same filename. -/
theorem claim_C10_delete_traversal :
    ¬ (pathResolveSegs ["app"] (mkVirtualPrinter {}).saveDirectory
        <+: pathResolveSegs ["app"]
          (pathJoin (mkVirtualPrinter {}).saveDirectory "../../etc/target")) ∧
    VirtualPrinter.deleteSavedLabel ["app"] (mkVirtualPrinter {}) "../../etc/target"
        [(["etc", "target"], FileData.bin [7]),
         (["app", "generated_labels", "a.png"], FileData.bin [1])]
      = Except.ok [(["app", "generated_labels", "a.png"], FileData.bin [1])] ∧
    serveLabel ["app"] (mkVirtualPrinter {}).saveDirectory "../../etc/target"
        [(["etc", "target"], FileData.bin [7]),
         (["app", "generated_labels", "a.png"], FileData.bin [1])]
      = ServeResult.accessDenied := by
  refine ⟨by decide, rfl, rfl⟩
